import Mathlib

/-!
Shallow embedding of `src/weather-widget.js` (a weather widget: location
resolution with fallback, a single HTTP fetch with JSON transformation,
weather-code lookup tables, and a three-state display lifecycle with a
refresh timer).  JavaScript numbers are modelled as exact rationals,
`Math.round` as `round` (both round half towards positive infinity),
JS `undefined` holes as `Option`, thrown exceptions as `Except`, and the
asynchronous environment (geolocation callbacks, fetch outcomes) as
explicit data fed to the step functions.
-/

namespace WeatherWidget

/-- Configuration record built in the constructor: defaults merged with
caller options (`this.config`, lines 9-15 of the source). -/
structure Config where
  defaultLat : ℚ := 47.6062
  defaultLon : ℚ := -122.3321
  units : String := "celsius"
  updateInterval : ℕ := 600000

/-- A latitude/longitude pair. -/
structure Coords where
  lat : ℚ
  lon : ℚ
deriving DecidableEq, Repr

/-- Outcome of a `navigator.geolocation.getCurrentPosition` attempt:
either the success callback fires with device coordinates, or the error
callback fires (permission denial, positioning error, or the 5-second
timeout — the source treats all three through the same error callback). -/
inductive GeoOutcome where
  | success (lat lon : ℚ)
  | failure
deriving DecidableEq, Repr

/-- Host environment for `getLocation`: whether `navigator.geolocation`
exists, and what the attempt would yield if made. -/
structure GeoEnv where
  hasGeolocation : Bool
  outcome : GeoOutcome
deriving DecidableEq, Repr

/-- `getLocation` (source lines 43-69).  Returns the resolved coordinates
together with a flag recording whether `getCurrentPosition` was invoked.
The JS promise only ever resolves (both callbacks call `resolve`), which
the embedding reflects by being a total function. -/
def getLocation (cfg : Config) (env : GeoEnv) : Coords × Bool :=
  if env.hasGeolocation then
    match env.outcome with
    | .success la lo => (⟨la, lo⟩, true)
    | .failure => (⟨cfg.defaultLat, cfg.defaultLon⟩, true)
  else
    (⟨cfg.defaultLat, cfg.defaultLon⟩, false)

/-- JavaScript `x.toFixed(1)`: the sign of `x`, then `|x|` rounded to one
decimal digit (ties towards the larger magnitude, per ECMAScript ToFixed,
which extracts the sign first and rounds ties up on the magnitude). -/
def toFixed1 (q : ℚ) : String :=
  let sg := if q < 0 then "-" else ""
  let n := (round (|q| * 10)).toNat
  sg ++ toString (n / 10) ++ "." ++ toString (n % 10)

/-- `getLocationName` (source lines 111-117).  Compares against the
hard-coded Seattle coordinates, not `this.config`. -/
def getLocationName (lat lon : ℚ) : String :=
  if |lat - 47.6062| < 0.1 ∧ |lon - (-122.3321)| < 0.1 then
    "Seattle, WA"
  else
    toFixed1 lat ++ "°, " ++ toFixed1 lon ++ "°"

/-- `getWeatherIcon` (source lines 119-143): the `iconMap` object lookup
with `|| '🌤️'` default (every mapped value is a nonempty, hence truthy,
string, so `||` fires exactly on absent keys). -/
def getWeatherIcon (weatherCode : ℤ) : String :=
  if weatherCode = 0 then "☀️"
  else if weatherCode = 1 then "🌤️"
  else if weatherCode = 2 then "⛅"
  else if weatherCode = 3 then "☁️"
  else if weatherCode = 45 then "🌫️"
  else if weatherCode = 48 then "🌫️"
  else if weatherCode = 51 then "🌦️"
  else if weatherCode = 53 then "🌦️"
  else if weatherCode = 55 then "🌦️"
  else if weatherCode = 61 then "🌧️"
  else if weatherCode = 63 then "🌧️"
  else if weatherCode = 65 then "🌧️"
  else if weatherCode = 71 then "🌨️"
  else if weatherCode = 73 then "🌨️"
  else if weatherCode = 75 then "🌨️"
  else if weatherCode = 95 then "⛈️"
  else if weatherCode = 96 then "⛈️"
  else if weatherCode = 99 then "⛈️"
  else "🌤️"

/-- `getWeatherDescription` (source lines 145-168): the `descriptions`
object lookup with `|| 'Unknown'` default. -/
def getWeatherDescription (weatherCode : ℤ) : String :=
  if weatherCode = 0 then "Clear sky"
  else if weatherCode = 1 then "Mainly clear"
  else if weatherCode = 2 then "Partly cloudy"
  else if weatherCode = 3 then "Overcast"
  else if weatherCode = 45 then "Foggy"
  else if weatherCode = 48 then "Foggy"
  else if weatherCode = 51 then "Light drizzle"
  else if weatherCode = 53 then "Drizzle"
  else if weatherCode = 55 then "Heavy drizzle"
  else if weatherCode = 61 then "Light rain"
  else if weatherCode = 63 then "Rain"
  else if weatherCode = 65 then "Heavy rain"
  else if weatherCode = 71 then "Light snow"
  else if weatherCode = 73 then "Snow"
  else if weatherCode = 75 then "Heavy snow"
  else if weatherCode = 95 then "Thunderstorm"
  else if weatherCode = 96 then "Thunderstorm"
  else if weatherCode = 99 then "Severe thunderstorm"
  else "Unknown"

/-- The keys present in both lookup tables. -/
def knownCodes : List ℤ := [0, 1, 2, 3, 45, 48, 51, 53, 55, 61, 63, 65, 71, 73, 75, 95, 96, 99]

/-- The `current_weather` object of the API response. -/
structure CurrentWeather where
  temperature : ℚ
  windspeed : ℚ
  winddirection : ℚ
  weathercode : ℤ
  time : String
deriving DecidableEq, Repr

/-- The `hourly` object; the series field may be absent (JS `undefined`). -/
structure Hourly where
  relative_humidity_2m : Option (List ℚ)
deriving DecidableEq, Repr

/-- The `daily` object; each series may be absent. -/
structure Daily where
  sunrise : Option (List String)
  sunset : Option (List String)
deriving DecidableEq, Repr

/-- A parsed JSON response body.  Container fields may be absent;
accessing a property or index on an absent container throws a
`TypeError` in JS, which the embedding surfaces as a parse error. -/
structure ApiData where
  latitude : ℚ
  longitude : ℚ
  current_weather : Option CurrentWeather
  hourly : Option Hourly
  daily : Option Daily
deriving DecidableEq, Repr

/-- The snapshot object built by `processWeatherData` (source lines
98-108).  `humidity`, `sunrise`, `sunset` are `Option` because indexing
an empty JS array yields `undefined` without throwing (`sunrise`/`sunset`
then hold an Invalid Date). -/
structure WeatherSnapshot where
  temperature : ℤ
  windSpeed : ℤ
  windDirection : ℚ
  weatherCode : ℤ
  time : String
  humidity : Option ℚ
  sunrise : Option String
  sunset : Option String
  location : String
deriving DecidableEq, Repr

/-- Errors that can escape the fetch-and-transform step.
`networkError (some s)` is the explicit `throw new Error` on a non-ok
HTTP status `s`; `networkError none` is a transport-level rejection of
`fetch` itself; `parseError` is a failure while reading the body
(`response.json()` rejecting, or a `TypeError` from accessing a missing
container field during `processWeatherData`). -/
inductive WErr where
  | networkError (status : Option ℕ)
  | parseError
deriving DecidableEq, Repr

/-- `processWeatherData` (source lines 93-109).  Option checks follow the
JS property-access order inside the object literal: `current.temperature`
first, then `hourly.relative_humidity_2m[0]`, then `daily.sunrise[0]`,
then `daily.sunset[0]`; any access on an absent container throws. -/
def processWeatherData (data : ApiData) : Except WErr WeatherSnapshot :=
  match data.current_weather with
  | none => .error .parseError
  | some current =>
    match data.hourly with
    | none => .error .parseError
    | some hourly =>
      match hourly.relative_humidity_2m with
      | none => .error .parseError
      | some hum =>
        match data.daily with
        | none => .error .parseError
        | some daily =>
          match daily.sunrise with
          | none => .error .parseError
          | some sunriseList =>
            match daily.sunset with
            | none => .error .parseError
            | some sunsetList =>
              .ok {
                temperature := round current.temperature
                windSpeed := round current.windspeed
                windDirection := current.winddirection
                weatherCode := current.weathercode
                time := current.time
                humidity := hum.head?
                sunrise := sunriseList.head?
                sunset := sunsetList.head?
                location := getLocationName data.latitude data.longitude }

/-- Outcome of the `fetch` call: transport-level rejection, or an HTTP
response with its `ok` flag, status code, and body (`none` when
`response.json()` rejects on a malformed body). -/
inductive FetchResult where
  | transportFail
  | response (ok : Bool) (status : ℕ) (body : Option ApiData)
deriving DecidableEq, Repr

/-- `fetchWeather` (source lines 71-91), with the `this.lastUpdate`
mutation made explicit: the pair is (thrown-or-returned value, lastUpdate
after the call).  `lastUpdate` is assigned right after `response.json()`
succeeds and before `processWeatherData` runs. -/
def fetchWeather (lastUpdate : Option ℚ) (now : ℚ) (r : FetchResult) :
    Except WErr WeatherSnapshot × Option ℚ :=
  match r with
  | .transportFail => (.error (.networkError none), lastUpdate)
  | .response ok status body =>
    if ok = false then
      (.error (.networkError (some status)), lastUpdate)
    else
      match body with
      | none => (.error .parseError, lastUpdate)
      | some data => (processWeatherData data, some now)

/-- True when the result is a network-kind error. -/
def isNetworkError : Except WErr WeatherSnapshot → Bool
  | .error (.networkError _) => true
  | _ => false

/-- True when the result is a parse-kind error. -/
def isParseError : Except WErr WeatherSnapshot → Bool
  | .error .parseError => true
  | _ => false

/-- The successful snapshot, when there is one. -/
def getOk : Except WErr WeatherSnapshot → Option WeatherSnapshot
  | .ok s => some s
  | .error _ => none

/-- All container fields whose absence makes `processWeatherData` throw. -/
def requiredFieldsPresent (data : ApiData) : Bool :=
  match data.current_weather, data.hourly, data.daily with
  | some _, some h, some d =>
    h.relative_humidity_2m.isSome && d.sunrise.isSome && d.sunset.isSome
  | _, _, _ => false

/-- Visibility of the three display regions (`style.display` of the
loading, content and error elements). -/
structure Display where
  loadingVisible : Bool
  contentVisible : Bool
  errorVisible : Bool
deriving DecidableEq, Repr

/-- `showLoading` (source lines 206-210). -/
def showLoading (_d : Display) : Display := ⟨true, false, false⟩

/-- `showContent` (source lines 212-216). -/
def showContent (_d : Display) : Display := ⟨false, true, false⟩

/-- `showError` (source lines 218-222). -/
def showError (_d : Display) : Display := ⟨false, false, true⟩

/-- The three display-changing operations. -/
inductive DisplayOp where
  | loading
  | content
  | error
deriving DecidableEq, Repr

/-- Apply one display operation. -/
def applyOp (d : Display) : DisplayOp → Display
  | .loading => showLoading d
  | .content => showContent d
  | .error => showError d

/-- Apply a sequence of display operations in order. -/
def applyOps (d : Display) (ops : List DisplayOp) : Display :=
  ops.foldl applyOp d

/-- Number of visible regions. -/
def visibleCount (d : Display) : ℕ :=
  (if d.loadingVisible then 1 else 0) +
    (if d.contentVisible then 1 else 0) +
    (if d.errorVisible then 1 else 0)

/-- Exactly one region is visible, the other two hidden. -/
def exactlyOneVisible (d : Display) : Prop := visibleCount d = 1

/-- Widget state relevant to the refresh lifecycle: the display and the
number of `setInterval` timers currently armed. -/
structure WidgetState where
  display : Display
  timers : ℕ
deriving DecidableEq, Repr

/-- One run of `init` (source lines 23-41), abstracted over whether the
awaited location-fetch-render sequence succeeds: `showLoading`, then on
success render, `showContent` and `setupAutoRefresh` (which arms one more
`setInterval`, source lines 224-228); on any thrown error, `showError`.
`setupAutoRefresh` is reached only on the success path. -/
def initCycle (s : WidgetState) (ok : Bool) : WidgetState :=
  let s1 : WidgetState := { s with display := showLoading s.display }
  if ok then
    { s1 with display := showContent s1.display, timers := s1.timers + 1 }
  else
    { s1 with display := showError s1.display }

/-! ## Helper lemmas -/

/-- Evaluation of `toFixed1` on a nonnegative argument, once the rounded
scaled value is known. -/
theorem toFixed1_of_nonneg (q : ℚ) (n : ℤ) (hq : ¬ q < 0) (h : round (|q| * 10) = n) :
    toFixed1 q = toString (n.toNat / 10) ++ "." ++ toString (n.toNat % 10) := by
  simp [toFixed1, hq, h]

/-- Evaluation of `toFixed1` on a negative argument, once the rounded
scaled value is known. -/
theorem toFixed1_of_neg (q : ℚ) (n : ℤ) (hq : q < 0) (h : round (|q| * 10) = n) :
    toFixed1 q = "-" ++ toString (n.toNat / 10) ++ "." ++ toString (n.toNat % 10) := by
  simp [toFixed1, hq, h]

/-- A configuration whose default location is New York City. -/
def nycConfig : Config := { defaultLat := 40.7128, defaultLon := -74.006 }

/-- How `processWeatherData` classifies each body: it never produces a
network error, it throws a parse error exactly when a required container
field is absent, and it succeeds exactly when all are present. -/
theorem processWeatherData_spec (d : ApiData) :
    isNetworkError (processWeatherData d) = false ∧
    isParseError (processWeatherData d) = !(requiredFieldsPresent d) ∧
    (getOk (processWeatherData d)).isSome = requiredFieldsPresent d := by
  rcases d with ⟨la, lo, _ | c, _ | ⟨_ | rh⟩, _ | ⟨_ | sr, _ | ss⟩⟩ <;>
    simp [processWeatherData, requiredFieldsPresent, isParseError, isNetworkError, getOk]

/-- The snapshot `processWeatherData` builds when every container field
is present. -/
theorem processWeatherData_ok (la lo : ℚ) (c : CurrentWeather) (rh : List ℚ)
    (sr ss : List String) :
    processWeatherData ⟨la, lo, some c, some ⟨some rh⟩, some ⟨some sr, some ss⟩⟩ =
      .ok { temperature := round c.temperature, windSpeed := round c.windspeed,
            windDirection := c.winddirection, weatherCode := c.weathercode, time := c.time,
            humidity := rh.head?, sunrise := sr.head?, sunset := ss.head?,
            location := getLocationName la lo } := rfl

/-- Any sequence of display operations keeps exactly one region visible
once that invariant holds. -/
theorem applyOps_one (d : Display) (ops : List DisplayOp) (hd : visibleCount d = 1) :
    visibleCount (applyOps d ops) = 1 := by
  induction ops generalizing d with
  | nil => exact hd
  | cons o os ih =>
    cases o <;> exact ih _ rfl

/-- A well-formed response body: fractional temperature 21.6 and wind
speed 9.7, humidity series `[65]`, one daily sunrise/sunset entry. -/
def exBody : ApiData :=
  { latitude := 0, longitude := 0,
    current_weather := some ⟨21.6, 9.7, 180, 61, "2024-01-01T12:00"⟩,
    hourly := some ⟨some [65]⟩,
    daily := some ⟨some ["2024-01-01T07:12"], some ["2024-01-01T19:03"]⟩ }

/-- The snapshot `processWeatherData` builds from `exBody`. -/
def exSnap : WeatherSnapshot :=
  { temperature := round (21.6 : ℚ), windSpeed := round (9.7 : ℚ),
    windDirection := 180, weatherCode := 61, time := "2024-01-01T12:00",
    humidity := some 65, sunrise := some "2024-01-01T07:12", sunset := some "2024-01-01T19:03",
    location := getLocationName 0 0 }

/-- A body whose containers are all present but whose hourly humidity
series is the empty array: `relative_humidity_2m[0]` is then `undefined`
in JS and no exception is thrown. -/
def exBodyNoHum : ApiData :=
  { latitude := 0, longitude := 0,
    current_weather := some ⟨21, 10, 180, 0, "t"⟩,
    hourly := some ⟨some []⟩,
    daily := some ⟨some ["sr"], some ["ss"]⟩ }

/-- A body with `current_weather` missing entirely: reading
`current.temperature` throws a `TypeError` during snapshot construction. -/
def exBadBody : ApiData :=
  { latitude := 0, longitude := 0, current_weather := none,
    hourly := some ⟨some [50]⟩, daily := some ⟨some ["a"], some ["b"]⟩ }

/-! ## Claims -/

/-- Claim C1, counterexample: the description table does not match the
spec's wording for several codes.  Code 53 yields "Drizzle", not
"Moderate drizzle"; 55 yields "Heavy drizzle", not "Dense drizzle"; 63
yields "Rain", not "Moderate rain"; 73 yields "Snow", not "Moderate
snow"; 96 and 99 yield "Thunderstorm" and "Severe thunderstorm", with no
mention of hail. -/
theorem C1_counterexample :
    getWeatherDescription 53 = "Drizzle" ∧ getWeatherDescription 53 ≠ "Moderate drizzle" ∧
    getWeatherDescription 55 = "Heavy drizzle" ∧ getWeatherDescription 55 ≠ "Dense drizzle" ∧
    getWeatherDescription 63 = "Rain" ∧ getWeatherDescription 63 ≠ "Moderate rain" ∧
    getWeatherDescription 73 = "Snow" ∧ getWeatherDescription 73 ≠ "Moderate snow" ∧
    getWeatherDescription 96 = "Thunderstorm" ∧
    getWeatherDescription 96 ≠ "Thunderstorm with hail" ∧
    getWeatherDescription 99 = "Severe thunderstorm" := by
  decide

/-- Claim C1, amended: the exact description table as the code defines
it, for all eighteen mapped codes. -/
theorem C1_theorem :
    getWeatherDescription 0 = "Clear sky" ∧
    getWeatherDescription 1 = "Mainly clear" ∧
    getWeatherDescription 2 = "Partly cloudy" ∧
    getWeatherDescription 3 = "Overcast" ∧
    getWeatherDescription 45 = "Foggy" ∧
    getWeatherDescription 48 = "Foggy" ∧
    getWeatherDescription 51 = "Light drizzle" ∧
    getWeatherDescription 53 = "Drizzle" ∧
    getWeatherDescription 55 = "Heavy drizzle" ∧
    getWeatherDescription 61 = "Light rain" ∧
    getWeatherDescription 63 = "Rain" ∧
    getWeatherDescription 65 = "Heavy rain" ∧
    getWeatherDescription 71 = "Light snow" ∧
    getWeatherDescription 73 = "Snow" ∧
    getWeatherDescription 75 = "Heavy snow" ∧
    getWeatherDescription 95 = "Thunderstorm" ∧
    getWeatherDescription 96 = "Thunderstorm" ∧
    getWeatherDescription 99 = "Severe thunderstorm" := by
  decide

/-- Claim C2: the refresh timer is NOT armed once at startup regardless
of outcome.  Starting from a fresh widget (no timer armed), a first cycle
that ends in the Error state arms zero timers — `setupAutoRefresh` sits
on the success path only — so no subsequent cycle is ever scheduled; and
a second successful cycle arms a second interval on top of the first. -/
theorem C2_theorem :
    (initCycle ⟨⟨false, false, false⟩, 0⟩ false).timers = 0 ∧
    (initCycle ⟨⟨false, false, false⟩, 0⟩ false).display = ⟨false, false, true⟩ ∧
    (initCycle (initCycle ⟨⟨false, false, false⟩, 0⟩ true) true).timers = 2 := by
  decide

/-- Claim C3, counterexample: with a caller-configured default of New
York City, coordinates equal to that configured default (distance zero in
both axes) still get the generic coordinate format, not the friendly
label — `getLocationName` compares against hard-coded Seattle
coordinates, ignoring the configuration. -/
theorem C3_counterexample :
    |(40.7128 : ℚ) - nycConfig.defaultLat| < 0.1 ∧
    |(-74.006 : ℚ) - nycConfig.defaultLon| < 0.1 ∧
    getLocationName 40.7128 (-74.006) = "40.7°, -74.0°" ∧
    getLocationName 40.7128 (-74.006) ≠ "Seattle, WA" := by
  have hfmt : getLocationName 40.7128 (-74.006) = "40.7°, -74.0°" := by
    rw [getLocationName, if_neg (by push_neg; intro h1; rw [abs_of_pos (by norm_num)]; norm_num)]
    rw [toFixed1_of_nonneg 40.7128 407 (by norm_num)
      (by rw [abs_of_pos (by norm_num)]; norm_num [round_eq])]
    rw [toFixed1_of_neg (-74.006) 740 (by norm_num)
      (by rw [abs_of_neg (by norm_num)]; norm_num [round_eq])]
    rfl
  refine ⟨by norm_num [nycConfig], by norm_num [nycConfig], hfmt, by rw [hfmt]; decide⟩

/-- Claim C3, amended: the label is the friendly "Seattle, WA" exactly
when the coordinates are within 0.1 degrees of the hard-coded Seattle
location (47.6062, -122.3321) in both axes — not of the configured
default — and the one-decimal degree format otherwise. -/
theorem C3_theorem (lat lon : ℚ) :
    (|lat - 47.6062| < 0.1 ∧ |lon - (-122.3321)| < 0.1 →
      getLocationName lat lon = "Seattle, WA") ∧
    (¬(|lat - 47.6062| < 0.1 ∧ |lon - (-122.3321)| < 0.1) →
      getLocationName lat lon = toFixed1 lat ++ "°, " ++ toFixed1 lon ++ "°") := by
  exact ⟨fun h => by rw [getLocationName, if_pos h],
    fun h => by rw [getLocationName, if_neg h]⟩

/-- Claim C3, witness: coordinates 47.6, -122.3 lie inside the Seattle
band and receive the friendly label. -/
theorem C3_witness : getLocationName 47.6 (-122.3) = "Seattle, WA" :=
  (C3_theorem 47.6 (-122.3)).1 (by constructor <;> rw [abs_lt] <;> constructor <;> norm_num)

/-- Claim C4, counterexample: a response whose containers are all present
but whose hourly humidity series is empty is a body missing an expected
reading, yet the fetch neither raises a parse error nor a network error:
it succeeds, and the resulting snapshot's humidity is absent — so success
does not imply a fully populated snapshot. -/
theorem C4_counterexample :
    isParseError (fetchWeather none 0 (.response true 200 (some exBodyNoHum))).1 = false ∧
    isNetworkError (fetchWeather none 0 (.response true 200 (some exBodyNoHum))).1 = false ∧
    Option.map WeatherSnapshot.humidity
      (getOk (fetchWeather none 0 (.response true 200 (some exBodyNoHum))).1) = some none :=
  ⟨rfl, rfl, rfl⟩

/-- Claim C4, amended: the fetch fails with a network error exactly when
the transport fails or the response status is not ok; it fails with a
parse error exactly when the body is not valid JSON or one of the
container fields (current_weather, hourly, hourly.relative_humidity_2m,
daily, daily.sunrise, daily.sunset) is missing; it succeeds exactly
otherwise (missing leaf readings such as an empty humidity series do not
fail); and the two error kinds are distinct values. -/
theorem C4_theorem (lu : Option ℚ) (now : ℚ) (r : FetchResult) :
    (isNetworkError (fetchWeather lu now r).1 = true ↔
      r = .transportFail ∨ ∃ s b, r = .response false s b) ∧
    (isParseError (fetchWeather lu now r).1 = true ↔
      (∃ s, r = .response true s none) ∨
        ∃ s d, r = .response true s (some d) ∧ requiredFieldsPresent d = false) ∧
    ((getOk (fetchWeather lu now r).1).isSome = true ↔
      ∃ s d, r = .response true s (some d) ∧ requiredFieldsPresent d = true) ∧
    (∀ s, WErr.networkError s ≠ WErr.parseError) := by
  refine ⟨?_, ?_, ?_, fun s h => by cases h⟩ <;>
  · match r with
    | .transportFail => simp [fetchWeather, isNetworkError, isParseError, getOk]
    | .response false s b => simp [fetchWeather, isNetworkError, isParseError, getOk]
    | .response true s none => simp [fetchWeather, isNetworkError, isParseError, getOk]
    | .response true s (some d) =>
      have h := processWeatherData_spec d
      cases hreq : requiredFieldsPresent d <;>
        rw [hreq] at h <;>
        simp [fetchWeather, h.1, h.2.1, h.2.2] <;>
        first
        | rfl
        | exact hreq
        | exact ⟨s, d, ⟨rfl, rfl⟩, hreq⟩

/-- Claim C4, witness: a well-formed response with ok status parses into
a snapshot. -/
theorem C4_witness :
    (getOk (fetchWeather none 0 (.response true 200 (some exBodyNoHum))).1).isSome = true :=
  (C4_theorem none 0 (.response true 200 (some exBodyNoHum))).2.2.1.mpr
    ⟨200, exBodyNoHum, rfl, rfl⟩

/-- Claim C5: each of `showLoading`, `showContent`, `showError` leaves
exactly one region visible whatever the display looked like before, and
any sequence of display operations after the `showLoading` performed at
the start of the first cycle keeps exactly one region visible — never
zero, never several. -/
theorem C5_theorem (d : Display) (ops : List DisplayOp) :
    exactlyOneVisible (showLoading d) ∧ exactlyOneVisible (showContent d) ∧
      exactlyOneVisible (showError d) ∧ exactlyOneVisible (applyOps (showLoading d) ops) :=
  ⟨rfl, rfl, rfl, applyOps_one _ ops rfl⟩

/-- Claim C6: on every successfully processed response the snapshot's
temperature and wind speed are the JS `Math.round` of the source values
(round half towards positive infinity), and each is within one half of
the source value, i.e. a nearest integer. -/
theorem C6_theorem (data : ApiData) (snap : WeatherSnapshot) (c : CurrentWeather)
    (hc : data.current_weather = some c)
    (h : processWeatherData data = .ok snap) :
    snap.temperature = round c.temperature ∧ snap.windSpeed = round c.windspeed ∧
    |(snap.temperature : ℚ) - c.temperature| ≤ 1 / 2 ∧
    |(snap.windSpeed : ℚ) - c.windspeed| ≤ 1 / 2 := by
  rcases data with ⟨la, lo, cw, hr, dl⟩
  obtain rfl : cw = some c := hc
  rcases hr with _ | ⟨_ | rh⟩ <;> rcases dl with _ | ⟨_ | sr, _ | ss⟩ <;>
    try (simp only [processWeatherData] at h; exact Except.noConfusion h)
  rw [processWeatherData_ok] at h
  injection h with h
  subst h
  refine ⟨rfl, rfl, ?_, ?_⟩
  · show |((round c.temperature : ℤ) : ℚ) - c.temperature| ≤ 1 / 2
    rw [abs_sub_comm]
    exact abs_sub_round _
  · show |((round c.windspeed : ℤ) : ℚ) - c.windspeed| ≤ 1 / 2
    rw [abs_sub_comm]
    exact abs_sub_round _

/-- Claim C6, witness: on `exBody` (temperature 21.6, wind speed 9.7) the
snapshot holds the rounded values, and 21.6 rounds to 22. -/
theorem C6_witness :
    (exSnap.temperature = round (21.6 : ℚ) ∧ exSnap.windSpeed = round (9.7 : ℚ) ∧
      |(exSnap.temperature : ℚ) - 21.6| ≤ 1 / 2 ∧ |(exSnap.windSpeed : ℚ) - 9.7| ≤ 1 / 2) ∧
    exSnap.temperature = 22 :=
  ⟨C6_theorem exBody exSnap ⟨21.6, 9.7, 180, 61, "2024-01-01T12:00"⟩ rfl rfl,
   by show round (21.6 : ℚ) = 22; norm_num [round_eq]⟩

/-- Claim C7: every integer weather code outside the lookup table maps to
the default "partly clear" glyph and the literal description "Unknown";
code 61 maps to the rain glyph and "Light rain", and code 200 to the
defaults. -/
theorem C7_theorem :
    (∀ c : ℤ, c ∉ knownCodes →
      getWeatherIcon c = "🌤️" ∧ getWeatherDescription c = "Unknown") ∧
    getWeatherIcon 61 = "🌧️" ∧ getWeatherDescription 61 = "Light rain" ∧
    getWeatherIcon 200 = "🌤️" ∧ getWeatherDescription 200 = "Unknown" := by
  refine ⟨?_, by decide, by decide, by decide, by decide⟩
  intro c hc
  simp only [knownCodes, List.mem_cons, List.not_mem_nil, or_false, not_or] at hc
  obtain ⟨h0, h1, h2, h3, h45, h48, h51, h53, h55, h61, h63, h65, h71, h73, h75,
    h95, h96, h99⟩ := hc
  constructor
  · simp [getWeatherIcon, h0, h1, h2, h3, h45, h48, h51, h53, h55, h61, h63, h65,
      h71, h73, h75, h95, h96, h99]
  · simp [getWeatherDescription, h0, h1, h2, h3, h45, h48, h51, h53, h55, h61, h63,
      h65, h71, h73, h75, h95, h96, h99]

/-- Claim C7, witness: 200 is outside the table and gets the defaults. -/
theorem C7_witness : getWeatherIcon 200 = "🌤️" ∧ getWeatherDescription 200 = "Unknown" :=
  C7_theorem.1 200 (by decide)

/-- Claim C8: location resolution is total (the promise always resolves).
On a successful geolocation attempt it yields the device coordinates; on
denial, error or timeout it yields the configured default unchanged; and
without a geolocation capability it yields the default with no attempt
made (the second component records whether the call was attempted). -/
theorem C8_theorem (cfg : Config) (env : GeoEnv) :
    (∀ la lo, env.hasGeolocation = true → env.outcome = .success la lo →
      getLocation cfg env = (⟨la, lo⟩, true)) ∧
    (env.hasGeolocation = true → env.outcome = .failure →
      getLocation cfg env = (⟨cfg.defaultLat, cfg.defaultLon⟩, true)) ∧
    (env.hasGeolocation = false →
      getLocation cfg env = (⟨cfg.defaultLat, cfg.defaultLon⟩, false)) := by
  rcases env with ⟨hg, oc⟩
  refine ⟨?_, ?_, ?_⟩
  · rintro la lo rfl rfl
    rfl
  · rintro rfl rfl
    rfl
  · rintro rfl
    rfl

/-- Claim C8, witness: with no geolocation capability and the default
configuration, the Seattle defaults come back with no call attempted. -/
theorem C8_witness :
    getLocation {} ⟨false, .failure⟩ = (⟨(47.6062 : ℚ), (-122.3321 : ℚ)⟩, false) :=
  (C8_theorem {} ⟨false, .failure⟩).2.2 rfl

/-- Claim C9: on every well-formed response the snapshot's humidity is
the first element of the hourly humidity series, and sunrise and sunset
are the first elements of the daily series. -/
theorem C9_theorem (data : ApiData) (snap : WeatherSnapshot) (hl : List ℚ)
    (sr ss : List String)
    (hh : data.hourly = some ⟨some hl⟩) (hd : data.daily = some ⟨some sr, some ss⟩)
    (h : processWeatherData data = .ok snap) :
    snap.humidity = hl.head? ∧ snap.sunrise = sr.head? ∧ snap.sunset = ss.head? := by
  rcases data with ⟨la, lo, cw, hr, dl⟩
  obtain rfl : hr = some ⟨some hl⟩ := hh
  obtain rfl : dl = some ⟨some sr, some ss⟩ := hd
  cases cw with
  | none =>
    simp only [processWeatherData] at h
    exact Except.noConfusion h
  | some c =>
    rw [processWeatherData_ok] at h
    injection h with h
    subst h
    exact ⟨rfl, rfl, rfl⟩

/-- Claim C9, witness: on `exBody` the snapshot carries humidity 65 and
the single daily sunrise/sunset entries. -/
theorem C9_witness :
    exSnap.humidity = [(65 : ℚ)].head? ∧
    exSnap.sunrise = ["2024-01-01T07:12"].head? ∧
    exSnap.sunset = ["2024-01-01T19:03"].head? :=
  C9_theorem exBody exSnap [65] ["2024-01-01T07:12"] ["2024-01-01T19:03"] rfl rfl rfl

/-- Claim C10: once the body parses as JSON, `lastUpdate` is assigned
before any field is extracted — a cycle that then fails during snapshot
construction has already mutated `lastUpdate` — while transport failures,
non-ok statuses and JSON-level rejections leave `lastUpdate` untouched. -/
theorem C10_theorem (lu : Option ℚ) (now : ℚ) (s : ℕ) (d : ApiData) (e : WErr)
    (h : processWeatherData d = .error e) :
    fetchWeather lu now (.response true s (some d)) = (.error e, some now) ∧
    (fetchWeather lu now (.response true s none)).2 = lu ∧
    (fetchWeather lu now .transportFail).2 = lu ∧
    (fetchWeather lu now (.response false s (some d))).2 = lu := by
  refine ⟨?_, rfl, rfl, rfl⟩
  show (processWeatherData d, some now) = (.error e, some now)
  rw [h]

/-- Claim C10, witness: a body missing `current_weather` makes the cycle
end in a parse error with `lastUpdate` already set to the current time. -/
theorem C10_witness :
    fetchWeather none 0 (.response true 200 (some exBadBody)) =
      (.error .parseError, some 0) ∧
    (fetchWeather none 0 (.response true 200 none)).2 = none ∧
    (fetchWeather none 0 .transportFail).2 = none ∧
    (fetchWeather none 0 (.response false 200 (some exBadBody))).2 = none :=
  C10_theorem none 0 200 exBadBody .parseError rfl

end WeatherWidget
